import Mathlib

/-!
Verification of the satellite-health-monitor pipeline.

This file gives a shallow embedding, over `ℚ` (machine floats modelled as exact
rationals) and `List`, of the table-manipulation logic of the repository:

* `data_preprocessing.py` : `preprocess_satellite_data`,
  `create_time_series_dataset`, `create_root_cause_dataset`;
* `satellite_data_generator.py` : `generate_satellite_telemetry`
  (the Gaussian noise draws and `np.sin` are inputs of the embedding:
  `s : ℚ → ℚ` stands for `x ↦ sin(2·π·x)` and each `noise* : ℕ → ℚ` for one
  noise array);
* `train_anomaly_detection.py` : the class-imbalance / synthetic-label logic
  (the random index draw `np.random.choice` is an input of the embedding);
* `train_lifetime_prediction.py` : the battery-rate and days-to-EOL columns;
* `convert_model.py` and `prepare_for_web.py` : the JSON metadata sidecars.

Columns of a pandas frame become Lean functions from a row index to `ℚ`;
`fillna` becomes the corresponding total definition; `NaN` cells that survive
(only the extra CSV columns such as `anomaly_parameter`) are `Option` values.
-/

namespace Satellite

/-! ## data_preprocessing.py — column computations of `preprocess_satellite_data` -/

/-- One row of the telemetry CSV read by `preprocess_satellite_data`.
`timestamp` is minutes since an epoch (the pandas datetime only feeds the
`hour` / `day_of_week` columns).  `extras` holds any further columns carried
by the CSV (for the pipeline run these are `anomaly_parameter` and
`root_cause`, written by the generator only on anomalous rows); a `none`
entry is a `NaN` cell.  The five sensor channels and the flags are numeric
and `NaN`-free, as the generator produces them. -/
structure TelemetryRow where
  timestamp : ℕ
  power : ℚ
  temperature : ℚ
  batteryHealth : ℚ
  signalStrength : ℚ
  memoryUsage : ℚ
  in_eclipse : ℚ
  anomaly : ℚ
  extras : List (Option ℚ)
deriving Repr, DecidableEq

instance : Inhabited TelemetryRow := ⟨⟨0, 0, 0, 0, 0, 0, 0, 0, []⟩⟩

/-- `Series.diff().fillna(0)` at row `i` of the column `xs`
(data_preprocessing.py line 30 / 44). -/
def diffFill (xs : List ℚ) (i : ℕ) : ℚ :=
  if i = 0 then 0 else xs.getD i 0 - xs.getD (i - 1) 0

/-- The window `xs[i-5..i]` that `rolling(window=6)` sees at row `i ≥ 5`
(shorter near the front, where pandas yields `NaN` instead). -/
def windowSlice (xs : List ℚ) (i : ℕ) : List ℚ :=
  (xs.drop (i + 1 - 6)).take 6

/-- `Series.rolling(window=6).mean().fillna(series)` at row `i`
(data_preprocessing.py line 33): for the first five rows the rolling mean is
`NaN` and `fillna` substitutes the raw value. -/
def rollingMean (xs : List ℚ) (i : ℕ) : ℚ :=
  if i + 1 < 6 then xs.getD i 0 else (windowSlice xs i).sum / 6

/-- The square of the rolling sample standard deviation (pandas `ddof = 1`)
at row `i`; `0` for the first five rows where
`rolling(window=6).std().fillna(0)` substitutes `0`
(data_preprocessing.py line 34). -/
def rollingVar (xs : List ℚ) (i : ℕ) : ℚ :=
  if i + 1 < 6 then 0
  else ((windowSlice xs i).map
      (fun x => (x - (windowSlice xs i).sum / 6) ^ 2)).sum / 5

/-- `Series.rolling(window=6).std().fillna(0)` at row `i`: the square root of
the `ddof = 1` variance over the window, `0` while the window is
incomplete. -/
noncomputable def rollingStd (xs : List ℚ) (i : ℕ) : ℝ :=
  if i + 1 < 6 then 0 else Real.sqrt (rollingVar xs i)

/-- `Series.replace(0, 0.1)` applied to the denominators of the two
interaction ratios (data_preprocessing.py lines 40-41). -/
def replaceZero (x : ℚ) : ℚ :=
  if x = 0 then 1 / 10 else x

/-- The `eclipse_change` column: `in_eclipse.diff().fillna(0)` at row `i`
(data_preprocessing.py line 44). -/
def eclipseChange (e : List ℚ) (i : ℕ) : ℚ :=
  diffFill e i

/-- The `time_since_eclipse_change` accumulator loop of
`preprocess_satellite_data` (lines 46-52): `counter` starts at `0`; at each
row it is reset to `0` when `eclipse_change ≠ 0` and incremented otherwise,
and the post-update value is stored in the row.  `counterAt e i` is the value
stored at row `i`. -/
def counterAt (e : List ℚ) : ℕ → ℕ
  | 0 => if eclipseChange e 0 ≠ 0 then 0 else 0 + 1
  | i + 1 => if eclipseChange e (i + 1) ≠ 0 then 0 else counterAt e i + 1

/-- The whole `time_since_eclipse_change` column for an eclipse-flag column
`e`. -/
def timeSinceEclipseChange (e : List ℚ) : List ℕ :=
  (List.range e.length).map (counterAt e)

/-- The engineered columns that `preprocess_satellite_data` derives from one
sensor channel (lines 29-37): `delta`, `mean_1h`, the square of `std_1h`
(the `std_1h` column itself is `rollingStd`, the real square root of
`var_1h`), and `deviation = raw − mean_1h`. -/
structure ChannelFeatures where
  delta : ℚ
  mean_1h : ℚ
  var_1h : ℚ
  deviation : ℚ
deriving Repr, DecidableEq

/-- The engineered features of one channel column `xs` at row `i`. -/
def channelFeaturesAt (xs : List ℚ) (i : ℕ) : ChannelFeatures :=
  { delta := diffFill xs i
    mean_1h := rollingMean xs i
    var_1h := rollingVar xs i
    deviation := xs.getD i 0 - rollingMean xs i }

/-- One row of the engineered frame built by `preprocess_satellite_data`
just before the `dropna` of line 71.  `power_div_temp` and
`battery_div_power` are the source's `power_temp_ratio` and
`battery_power_ratio` columns (lines 40-41). -/
structure EngineeredRow where
  base : TelemetryRow
  hour : ℕ
  day_of_week : ℕ
  power_f : ChannelFeatures
  temperature_f : ChannelFeatures
  batteryHealth_f : ChannelFeatures
  signalStrength_f : ChannelFeatures
  memoryUsage_f : ChannelFeatures
  power_div_temp : ℚ
  battery_div_power : ℚ
  eclipse_change : ℚ
  time_since_eclipse_change : ℕ
deriving Repr, DecidableEq

/-- The engineered row that `preprocess_satellite_data` computes at index `i`
of the telemetry frame `df` (lines 25-52; every engineered column carries an
explicit `fillna`, so all of them are total). -/
def engineerRow (df : List TelemetryRow) (i : ℕ) : EngineeredRow :=
  let r := df.getD i default
  let eclipseCol := df.map (·.in_eclipse)
  { base := r
    hour := r.timestamp / 60 % 24
    day_of_week := r.timestamp / (60 * 24) % 7
    power_f := channelFeaturesAt (df.map (·.power)) i
    temperature_f := channelFeaturesAt (df.map (·.temperature)) i
    batteryHealth_f := channelFeaturesAt (df.map (·.batteryHealth)) i
    signalStrength_f := channelFeaturesAt (df.map (·.signalStrength)) i
    memoryUsage_f := channelFeaturesAt (df.map (·.memoryUsage)) i
    power_div_temp := r.power / replaceZero r.temperature
    battery_div_power := r.batteryHealth / replaceZero r.power
    eclipse_change := eclipseChange eclipseCol i
    time_since_eclipse_change := counterAt eclipseCol i }

/-- Whether `df.dropna()` (line 71) discards row `r`: the engineered columns
are all total (each carries a `fillna`), so the only possible `NaN` cells of
a row are the `extras` columns read from the CSV (for the pipeline run,
`anomaly_parameter` / `root_cause`). -/
def rowHasNaN (r : TelemetryRow) : Bool :=
  r.extras.any Option.isNone

/-- `preprocess_satellite_data` without the optional anomaly-file merge
(the merge of lines 55-68 only adds total `0 / 1` `cause_*` columns and so
cannot change which rows `dropna` keeps): engineer every row, then
`dropna().reset_index(drop=True)`. -/
def preprocess (df : List TelemetryRow) : List EngineeredRow :=
  ((List.range df.length).map (engineerRow df)).filter
    (fun r => ! rowHasNaN r.base)

/-! ## data_preprocessing.py — dataset builders

For the two dataset builders the engineered frame is viewed by column name:
`names` lists the column names and each row is the list of the corresponding
numeric values. -/

/-- The name of the target column of `create_time_series_dataset`. -/
def anomalyKey : String := "anomaly"

/-- The prefix `cause_` of the one-hot root-cause indicator columns. -/
def causeKey : String := "cause_"

/-- The columns both builders exclude from the feature matrices
(data_preprocessing.py lines 92-93 and 111-112). -/
def excludedCols : List String :=
  ["timestamp", "satellite_id", "anomaly", "anomaly_parameter", "root_cause"]

/-- `col.startswith('cause_')`, computed on the character data. -/
def startsWithCause (c : String) : Bool :=
  List.isPrefixOf causeKey.data c.data

/-- `feature_columns` of `create_time_series_dataset` (lines 92-93): every
column whose name is not one of the five excluded names — `cause_*` columns
are not excluded here. -/
def featureColsSeq (names : List String) : List String :=
  names.filter (fun c => ! excludedCols.contains c)

/-- `feature_columns` of `create_root_cause_dataset` (lines 111-113): the
excluded names and additionally every `cause_*` column. -/
def featureColsRoot (names : List String) : List String :=
  names.filter (fun c => ! excludedCols.contains c && ! startsWithCause c)

/-- `target_columns` of `create_root_cause_dataset` (line 115). -/
def targetCols (names : List String) : List String :=
  names.filter (fun c => startsWithCause c)

/-- `row[feature_columns]`: the values of the selected columns `sel` of a
row, in selection order. -/
def selectCols (names sel : List String) (row : List ℚ) : List ℚ :=
  sel.map (fun c => row.getD (names.indexOf c) 0)

/-- The `anomaly` flag of row `r` of the engineered frame. -/
def anomalyFlag (names : List String) (rows : List (List ℚ)) (r : ℕ) : ℚ :=
  (rows.getD r []).getD (names.indexOf anomalyKey) 0

/-- `create_time_series_dataset` (lines 79-102): slide a window of
`sequence_length` rows with stride `1`; the label of the window starting at
`i` is the `anomaly` flag of row `i + sequence_length + prediction_horizon - 1`.
The Python loop runs `i` over `range(n - L - H + 1)`, which is empty when the
bound is non-positive; `n + 1 - (L + H)` is the same count in `ℕ`. -/
def createTimeSeriesDataset (names : List String) (rows : List (List ℚ))
    (sequence_length prediction_horizon : ℕ) :
    List (List (List ℚ)) × List ℚ :=
  let fc := featureColsSeq names
  let count := rows.length + 1 - (sequence_length + prediction_horizon)
  ((List.range count).map
      (fun i => ((rows.drop i).take sequence_length).map (selectCols names fc)),
   (List.range count).map
      (fun i => anomalyFlag names rows (i + sequence_length + prediction_horizon - 1)))

/-- `df[df['anomaly'] == 1]` (line 109): the anomalous rows of the engineered
frame. -/
def anomalyRows (names : List String) (rows : List (List ℚ)) : List (List ℚ) :=
  rows.filter (fun row => row.getD (names.indexOf anomalyKey) 0 = 1)

/-- `create_root_cause_dataset` (lines 104-124): restrict to anomalous rows;
when there are none, or there is no `cause_*` column, return the explicit
empty signal `(None, None)` — modelled as `none` — instead of raising; the
whole function is total. -/
def createRootCauseDataset (names : List String) (rows : List (List ℚ)) :
    Option (List (List ℚ) × List (List ℚ)) :=
  let adf := anomalyRows names rows
  if adf.isEmpty || (targetCols names).isEmpty then none
  else
    some (adf.map (selectCols names (featureColsRoot names)),
          adf.map (selectCols names (targetCols names)))

/-! ## satellite_data_generator.py — `generate_satellite_telemetry`

The embedding is parametric in `s : ℚ → ℚ`, standing for `x ↦ sin(2·π·x)`
(`np.sin` only ever receives `2·π` times a rational in this script), and in
one function `ℕ → ℚ` per Gaussian noise array.  The fault-window offsets
`int(samples * frac)` are modelled as exact rational floors, written with
natural division. -/

/-- `samples = int((days * 24 * 60) / sample_interval_minutes)` (line 20). -/
def samples (days interval : ℕ) : ℕ :=
  days * 24 * 60 / interval

/-- `orbit_position = ((index * interval) % 95) / 95` (line 36). -/
def orbitPos (interval i : ℕ) : ℚ :=
  ((i * interval) % 95 : ℕ) / 95

/-- `in_eclipse = 1 if 0.3 < orbit_position < 0.7 else 0` (line 37). -/
def inEclipseFlag (interval i : ℕ) : ℚ :=
  if 3 / 10 < orbitPos interval i ∧ orbitPos interval i < 7 / 10 then 1 else 0

/-- `np.linspace(0, top, n)` at index `i` (lines 43 and 57). -/
def linspaceAt (top : ℚ) (n i : ℕ) : ℚ :=
  if n ≤ 1 then 0 else top * i / ((n : ℚ) - 1)

/-- The `power` column before clipping (lines 42-47):
`90 − degradation + 5·sin(2π·orbit) − 20·in_eclipse + noise`. -/
def powerRaw (days interval : ℕ) (s : ℚ → ℚ) (nP : ℕ → ℚ) (i : ℕ) : ℚ :=
  90 - linspaceAt 5 (samples days interval) i + 5 * s (orbitPos interval i)
    - 20 * inEclipseFlag interval i + nP i

/-- The `temperature` column before clipping (lines 50-53):
`25 + 10·sin(2π·orbit) + 0.1·(power − 85) + noise`, where `power` is the
pre-clip power column. -/
def temperatureRaw (days interval : ℕ) (s : ℚ → ℚ) (nP nT : ℕ → ℚ) (i : ℕ) : ℚ :=
  25 + 10 * s (orbitPos interval i)
    + 1 / 10 * (powerRaw days interval s nP i - 85) + nT i

/-- The `batteryHealth` column before clipping (lines 56-58):
`95 − 0.02·cycle_count + noise` with `cycle_count = linspace(0, 180, n)`. -/
def batteryRaw (days interval : ℕ) (nB : ℕ → ℚ) (i : ℕ) : ℚ :=
  95 - 2 / 100 * linspaceAt 180 (samples days interval) i + nB i

/-- The `signalStrength` column before clipping (lines 61-63):
`85 + 10·sin(2π·index·interval/240) + noise`. -/
def signalRaw (interval : ℕ) (s : ℚ → ℚ) (nS : ℕ → ℚ) (i : ℕ) : ℚ :=
  85 + 10 * s ((i * interval : ℕ) / 240) + nS i

/-- The `memoryUsage` column before clipping (lines 66-68):
`60 + 15·sin(2π·index·interval/360) + noise`. -/
def memoryRaw (interval : ℕ) (s : ℚ → ℚ) (nM : ℕ → ℚ) (i : ℕ) : ℚ :=
  60 + 15 * s ((i * interval : ℕ) / 360) + nM i

/-- `Series.clip(lo, hi)`. -/
def clip (x lo hi : ℚ) : ℚ :=
  max lo (min x hi)

/-- The clipped `power` column (line 71). -/
def powerClip (days interval : ℕ) (s : ℚ → ℚ) (nP : ℕ → ℚ) (i : ℕ) : ℚ :=
  clip (powerRaw days interval s nP i) 0 100

/-- The clipped `temperature` column (line 72). -/
def temperatureClip (days interval : ℕ) (s : ℚ → ℚ) (nP nT : ℕ → ℚ) (i : ℕ) : ℚ :=
  clip (temperatureRaw days interval s nP nT i) (-10) 50

/-- The clipped `batteryHealth` column (line 73). -/
def batteryClip (days interval : ℕ) (nB : ℕ → ℚ) (i : ℕ) : ℚ :=
  clip (batteryRaw days interval nB i) 0 100

/-- The clipped `signalStrength` column (line 74). -/
def signalClip (interval : ℕ) (s : ℚ → ℚ) (nS : ℕ → ℚ) (i : ℕ) : ℚ :=
  clip (signalRaw interval s nS i) 0 100

/-- The clipped `memoryUsage` column (line 75). -/
def memoryClip (interval : ℕ) (s : ℚ → ℚ) (nM : ℕ → ℚ) (i : ℕ) : ℚ :=
  clip (memoryRaw interval s nM i) 0 100

/-- Start of the power-fault window: `int(samples * 0.2)` (line 81). -/
def powerFaultStart (n : ℕ) : ℕ := n / 5

/-- Length parameter of the power-fault window: `int(samples * 0.03)`
(line 82); the `loc` slice of line 83 is inclusive at both ends. -/
def powerFaultDur (n : ℕ) : ℕ := 3 * n / 100

/-- Start of the temperature-fault window: `int(samples * 0.4)` (line 95). -/
def tempFaultStart (n : ℕ) : ℕ := 2 * n / 5

/-- Length parameter of the temperature-fault window: `int(samples * 0.02)`
(line 96); the `loc` slice of line 97 is inclusive at both ends. -/
def tempFaultDur (n : ℕ) : ℕ := n / 50

/-- Start of the battery-fault window: `int(samples * 0.6)` (line 109). -/
def battFaultStart (n : ℕ) : ℕ := 3 * n / 5

/-- Length of the battery-fault window: `int(samples * 0.05)` (line 110);
the `range` loop of line 111 excludes the upper end. -/
def battFaultDur (n : ℕ) : ℕ := n / 20

/-- Start of the signal-fault window: `int(samples * 0.7)` (line 125). -/
def sigFaultStart (n : ℕ) : ℕ := 7 * n / 10

/-- Length parameter of the signal-fault window: `int(samples * 0.01)`
(line 126); the `loc` slice of line 127 is inclusive at both ends. -/
def sigFaultDur (n : ℕ) : ℕ := n / 100

/-- Start of the memory-fault window: `int(samples * 0.85)` (line 139). -/
def memFaultStart (n : ℕ) : ℕ := 17 * n / 20

/-- Length of the memory-fault window: `int(samples * 0.04)` (line 140);
the `range` loop of line 141 excludes the upper end. -/
def memFaultDur (n : ℕ) : ℕ := n / 25

/-- Whether row `i` lies in the power-fault `loc` slice (line 83,
inclusive at both ends). -/
def powerWindow (n i : ℕ) : Prop :=
  powerFaultStart n ≤ i ∧ i ≤ powerFaultStart n + powerFaultDur n

instance (n i : ℕ) : Decidable (powerWindow n i) := by
  unfold powerWindow; infer_instance

/-- Whether row `i` lies in the temperature-fault `loc` slice (line 97,
inclusive at both ends). -/
def tempWindow (n i : ℕ) : Prop :=
  tempFaultStart n ≤ i ∧ i ≤ tempFaultStart n + tempFaultDur n

instance (n i : ℕ) : Decidable (tempWindow n i) := by
  unfold tempWindow; infer_instance

/-- Whether row `i` lies in the battery-fault `range` loop (line 111,
exclusive at the upper end). -/
def battWindow (n i : ℕ) : Prop :=
  battFaultStart n ≤ i ∧ i < battFaultStart n + battFaultDur n

instance (n i : ℕ) : Decidable (battWindow n i) := by
  unfold battWindow; infer_instance

/-- Whether row `i` lies in the signal-fault `loc` slice (line 127,
inclusive at both ends). -/
def sigWindow (n i : ℕ) : Prop :=
  sigFaultStart n ≤ i ∧ i ≤ sigFaultStart n + sigFaultDur n

instance (n i : ℕ) : Decidable (sigWindow n i) := by
  unfold sigWindow; infer_instance

/-- The `power` column of the returned table: the clipped column with the
solar-panel fault `*= 0.7` applied on the inclusive slice
`[start, start + duration]` (line 83). -/
def powerFinal (days interval : ℕ) (s : ℚ → ℚ) (nP : ℕ → ℚ) (i : ℕ) : ℚ :=
  if powerWindow (samples days interval) i then
    powerClip days interval s nP i * (7 / 10)
  else powerClip days interval s nP i

/-- The `temperature` column of the returned table: the clipped column with
the overheating fault `+= 15` applied on the inclusive slice
`[start, start + duration]` (line 97) — after the clip of line 72. -/
def temperatureFinal (days interval : ℕ) (s : ℚ → ℚ) (nP nT : ℕ → ℚ) (i : ℕ) : ℚ :=
  if tempWindow (samples days interval) i then
    temperatureClip days interval s nP nT i + 15
  else temperatureClip days interval s nP nT i

/-- The `batteryHealth` column of the returned table: inside the battery
fault window row `i` is multiplied once by `0.997 ^ (i − start)`
(lines 111-113). -/
def batteryFinal (days interval : ℕ) (nB : ℕ → ℚ) (i : ℕ) : ℚ :=
  if battWindow (samples days interval) i then
    batteryClip days interval nB i
      * (997 / 1000) ^ (i - battFaultStart (samples days interval))
  else batteryClip days interval nB i

/-- The `signalStrength` column of the returned table: the clipped column
with `*= 0.5` applied on the inclusive slice `[start, start + duration]`
(line 127). -/
def signalFinal (days interval : ℕ) (s : ℚ → ℚ) (nS : ℕ → ℚ) (i : ℕ) : ℚ :=
  if sigWindow (samples days interval) i then
    signalClip interval s nS i * (1 / 2)
  else signalClip interval s nS i

/-- Whether row `i` lies in the memory-leak loop `range(start, start + dur)`
(line 141). -/
def memWindow (n i : ℕ) : Prop :=
  memFaultStart n ≤ i ∧ i < memFaultStart n + memFaultDur n

instance (n i : ℕ) : Decidable (memWindow n i) := by
  unfold memWindow; infer_instance

/-- The `memoryUsage` column of the returned table: inside the memory-leak
window row `i` is overwritten with `min(95, previous_row + 0.5)` — the
previous row being the already-updated value, since the loop walks left to
right — and with `80` when `i = 0` (lines 141-143). -/
def memoryFinal (days interval : ℕ) (s : ℚ → ℚ) (nM : ℕ → ℚ) : ℕ → ℚ
  | 0 =>
    if memWindow (samples days interval) 0 then 80 else memoryClip interval s nM 0
  | i + 1 =>
    if memWindow (samples days interval) (i + 1) then
      min 95 (memoryFinal days interval s nM i + 1 / 2)
    else memoryClip interval s nM (i + 1)

/-! ## train_anomaly_detection.py — class-imbalance handling (lines 36-73)

The random draw `np.random.choice(len(y_train), synthetic_count,
replace=False)` is an input of the embedding: a duplicate-free list of
in-range indices of the prescribed length. -/

/-- `synthetic_count = max(5, int(0.05 * len(y_train)))` (line 53). -/
def syntheticCount (n : ℕ) : ℕ :=
  max 5 (n / 20)

/-- The diagnostic printed when only one class is present (line 45). -/
def singleClassMsg : String :=
  "Warning: Only one class found in training data!"

/-- The diagnostic printed when synthetic anomaly labels are generated
(line 51). -/
def syntheticMsg : String :=
  "Generating synthetic anomaly examples for training..."

/-- The diagnostic printed when balanced class weights are computed
(line 43). -/
def classWeightsMsg : String :=
  "Class weights computed"

/-- `synthetic_y_train`: copy `y_train` and set the drawn indices to `1`
(lines 59-60). -/
def flipAt (y : List ℚ) (idx : List ℕ) : List ℚ :=
  (List.range y.length).map (fun i => if i ∈ idx then 1 else y.getD i 0)

/-- The label-handling logic of lines 36-73: when more than one class is
present, compute class weights and keep the labels; otherwise warn, and only
in the all-zero case draw `synthetic_count` indices and flip them to `1`.
Returns the resulting training labels together with the diagnostics
printed. -/
def handleClassImbalance (y : List ℚ) (idx : List ℕ) : List ℚ × List String :=
  if 1 < y.dedup.length then (y, [classWeightsMsg])
  else if y.all (fun v => decide (v = 0)) then
    (flipAt y idx, [singleClassMsg, syntheticMsg])
  else (y, [singleClassMsg])

/-- How many positions of `b` differ from `a` (both read with the indices of
`a`). -/
def flippedCount (a b : List ℚ) : ℕ :=
  ((List.range a.length).filter (fun i => decide (a.getD i 0 ≠ b.getD i 0))).length

/-! ## train_lifetime_prediction.py — battery rate and days-to-EOL
(lines 25-36)

The generated data holds a single satellite, so the `groupby('satellite_id')`
diffs coincide with plain column diffs.  `bh` is the `batteryHealth` column
and `day` the `day` column. -/

/-- The denominator of `current_battery_rate` (line 25):
`day.diff().fillna(1)` — only the leading `NaN` is substituted; a zero
difference is left untouched. -/
def dayDiffFill (day : List ℚ) (i : ℕ) : ℚ :=
  if i = 0 then 1 else day.getD i 0 - day.getD (i - 1) 0

/-- `current_battery_rate = batteryHealth.diff().fillna(0) / day.diff().fillna(1)`
(line 25). -/
def batteryRate (bh day : List ℚ) (i : ℕ) : ℚ :=
  diffFill bh i / dayDiffFill day i

/-- The row filter of lines 28-29: keep rows with
`-1 < current_battery_rate < 0.1`. -/
def rateKept (bh day : List ℚ) (i : ℕ) : Prop :=
  -1 < batteryRate bh day i ∧ batteryRate bh day i < 1 / 10

/-- The denominator of the division inside the `np.where` of lines 32-36:
`abs(current_battery_rate)`.  `np.where` evaluates the division branch for
every retained row, whichever branch is selected. -/
def eolDivDenom (bh day : List ℚ) (i : ℕ) : ℚ :=
  |batteryRate bh day i|

/-- `days_to_battery_eol` before the final clip of line 39: the selected
value of the `np.where` — `(batteryHealth − 60) / abs(rate)` when the rate
is negative, else the `500` cap. -/
def daysToEol (bh day : List ℚ) (i : ℕ) : ℚ :=
  if batteryRate bh day i < 0 then
    (bh.getD i 0 - 60) / eolDivDenom bh day i
  else 500

/-! ## convert_model.py and prepare_for_web.py — JSON metadata sidecars -/

/-- A JSON value, as far as the two metadata sidecars need. -/
inductive Json where
  | num (q : ℚ)
  | str (s : String)
  | arr (xs : List Json)
  | obj (fields : List (String × Json))

/-- Key lookup in a JSON object (`none` on other values or missing keys). -/
def Json.lookup (j : Json) (k : String) : Option Json :=
  match j with
  | .obj fields => (fields.find? (fun p => p.1 == k)).map (·.2)
  | _ => none

/-- The `anomaly_detection` key of both sidecars. -/
def anomalyDetectionKey : String := "anomaly_detection"

/-- The `input_shape` key. -/
def inputShapeKey : String := "input_shape"

/-- The `threshold` key. -/
def thresholdKey : String := "threshold"

/-- The `root_cause` key of `convert_model.py`. -/
def rootCauseKey : String := "root_cause"

/-- The `causes` key of `convert_model.py`. -/
def causesKey : String := "causes"

/-- The `type` key. -/
def typeKey : String := "type"

/-- The `version` key. -/
def versionKey : String := "version"

/-- The `description` key of `prepare_for_web.py`. -/
def descriptionKey : String := "description"

/-- The value of the `type` field. -/
def tensorflowStr : String := "tensorflow"

/-- The value of the `version` field. -/
def versionStr : String := "1.0"

/-- The value of the `description` field of `prepare_for_web.py`. -/
def descriptionStr : String := "Anomaly detection model for satellite telemetry"

/-- The closed set of root-cause labels hard-coded in `convert_model.py`
(lines 27-33). -/
def rootCauseLabels : List String :=
  ["solar_panel_degradation", "cooling_system_failure",
   "battery_cell_degradation", "antenna_misalignment", "memory_leak"]

/-- The `metadata` object written by `convert_model.py` (lines 20-36), for a
model whose input tensor shape (without the batch dimension) is `shape`. -/
def convertModelMetadata (shape : List ℕ) : Json :=
  Json.obj
    [(anomalyDetectionKey, Json.obj
        [(typeKey, Json.str tensorflowStr),
         (inputShapeKey, Json.arr (shape.map (fun d => Json.num d))),
         (thresholdKey, Json.num (1 / 2))]),
     (rootCauseKey, Json.obj
        [(causesKey, Json.arr (rootCauseLabels.map Json.str))]),
     (versionKey, Json.str versionStr)]

/-- The `model_metadata` object written by `prepare_for_web.py`
(lines 19-27), for a model with input tensor shape `[d1, d2]`. -/
def prepareForWebMetadata (d1 d2 : ℕ) : Json :=
  Json.obj
    [(anomalyDetectionKey, Json.obj
        [(typeKey, Json.str tensorflowStr),
         (inputShapeKey, Json.arr [Json.num d1, Json.num d2]),
         (thresholdKey, Json.num (1 / 2))]),
     (versionKey, Json.str versionStr),
     (descriptionKey, Json.str descriptionStr)]

/-- The sidecar records the input tensor shape `shape`. -/
def recordsInputShape (j : Json) (shape : List ℕ) : Prop :=
  (j.lookup anomalyDetectionKey).bind (fun a => a.lookup inputShapeKey)
    = some (Json.arr (shape.map (fun d => Json.num d)))

/-- The sidecar records the fixed decision threshold `0.5`. -/
def recordsThreshold (j : Json) : Prop :=
  (j.lookup anomalyDetectionKey).bind (fun a => a.lookup thresholdKey)
    = some (Json.num (1 / 2))

/-- The sidecar records the closed set of root-cause labels. -/
def recordsCauses (j : Json) : Prop :=
  (j.lookup rootCauseKey).bind (fun a => a.lookup causesKey)
    = some (Json.arr (rootCauseLabels.map Json.str))

/-! ## Concrete tables and predicates used by the theorems -/

/-- The range invariant claimed for one row of a generated table: every
sensor channel value lies within its declared clip range. -/
def allChannelsInRange (days interval : ℕ) (s : ℚ → ℚ)
    (nP nT nB nS nM : ℕ → ℚ) (i : ℕ) : Prop :=
  (0 ≤ powerFinal days interval s nP i ∧ powerFinal days interval s nP i ≤ 100)
  ∧ (-10 ≤ temperatureFinal days interval s nP nT i
      ∧ temperatureFinal days interval s nP nT i ≤ 50)
  ∧ (0 ≤ batteryFinal days interval nB i ∧ batteryFinal days interval nB i ≤ 100)
  ∧ (0 ≤ signalFinal days interval s nS i ∧ signalFinal days interval s nS i ≤ 100)
  ∧ (0 ≤ memoryFinal days interval s nM i ∧ memoryFinal days interval s nM i ≤ 100)

/-- The constantly-zero noise draw (a possible realisation of every
Gaussian noise array). -/
def zeroNoise : ℕ → ℚ := fun _ => 0

/-- A constantly-zero `sin(2πx)` stand-in, bounded by `1` like the real
sine. -/
def zeroSin : ℚ → ℚ := fun _ => 0

/-- The noise draw that is `30` everywhere (each draw of a `N(0,1)` array
has full support, so this is a possible realisation). -/
def thirtyNoise : ℕ → ℚ := fun _ => 30

/-- A six-row telemetry table with no missing cells, used to refute
claim C1. -/
def sampleTelemetryRow (t : ℕ) (p : ℚ) : TelemetryRow :=
  { timestamp := t, power := p, temperature := 20, batteryHealth := 90,
    signalStrength := 80, memoryUsage := 50, in_eclipse := 0, anomaly := 0,
    extras := [] }

/-- Six telemetry rows, ten minutes apart. -/
def sampleTelemetry : List TelemetryRow :=
  [sampleTelemetryRow 0 90, sampleTelemetryRow 10 91, sampleTelemetryRow 20 92,
   sampleTelemetryRow 30 93, sampleTelemetryRow 40 94, sampleTelemetryRow 50 95]

/-- The one-hot column name used in the claim-C10 witness. -/
def causeMemLeakCol : String := "cause_memory_leak"

/-- The column names used in the claim-C10 witness. -/
def c10names : List String :=
  ["timestamp", "power", "cause_memory_leak", "anomaly"]

/-! ## Helper lemmas -/

/-- Reading every index of a list back with `getD` reproduces the list. -/
theorem map_getD_range {α : Type} (l : List α) (d : α) :
    (List.range l.length).map (fun i => l.getD i d) = l := by
  induction l with
  | nil => simp
  | cons a t ih =>
      simp only [List.length_cons, List.range_succ_eq_map, List.map_cons,
        List.map_map, Function.comp_def, List.getD_cons_zero, List.getD_cons_succ]
      rw [ih]

/-- `getD` through a map over `List.range`. -/
theorem getD_map_range {α : Type} (f : ℕ → α) (n k : ℕ) (d : α) (hk : k < n) :
    ((List.range n).map f).getD k d = f k := by
  rw [List.getD_eq_getElem?_getD, List.getElem?_map, List.getElem?_range hk]
  rfl

/-- Counting the members of a duplicate-free list of in-range indices inside
`List.range n` recovers its length. -/
theorem length_filter_range_mem (idx : List ℕ) (n : ℕ)
    (hnd : idx.Nodup) (hb : ∀ j ∈ idx, j < n) :
    ((List.range n).filter (fun i => decide (i ∈ idx))).length = idx.length := by
  have hperm : List.Perm ((List.range n).filter (fun i => decide (i ∈ idx))) idx := by
    refine (List.perm_ext_iff_of_nodup ((List.nodup_range n).filter _) hnd).mpr ?_
    intro a
    simp only [List.mem_filter, List.mem_range, decide_eq_true_eq]
    exact ⟨fun h => h.2, fun h => ⟨hb a h, h⟩⟩
  exact hperm.length_eq

/-- A nonempty list of zeros deduplicates to a single entry. -/
theorem dedup_length_one_of_zero (y : List ℚ) (hy : y ≠ [])
    (hz : ∀ v ∈ y, v = 0) : y.dedup.length = 1 := by
  have hnd : y.dedup.Nodup := y.nodup_dedup
  have hsub : ∀ v ∈ y.dedup, v = 0 := fun v hv => hz v (List.mem_dedup.mp hv)
  have h0 : (0 : ℚ) ∈ y.dedup := by
    obtain ⟨a, ha⟩ := List.exists_mem_of_ne_nil y hy
    exact List.mem_dedup.mpr (hz a ha ▸ ha)
  rcases hde : y.dedup with _ | ⟨a, t⟩
  · rw [hde] at h0; cases h0
  · rcases t with _ | ⟨b, t2⟩
    · rfl
    · exfalso
      rw [hde] at hnd hsub
      have ha0 : a = 0 := hsub a (by simp)
      have hb0 : b = 0 := hsub b (by simp)
      have : a ∉ b :: t2 := (List.nodup_cons.mp hnd).1
      exact this (by simp [ha0, hb0])

/-- Counting over `List.range` through `getD` is counting over the list. -/
theorem countP_getD_range {α : Type} (l : List α) (d : α) (q : α → Bool) :
    (List.range l.length).countP (fun i => q (l.getD i d)) = l.countP q := by
  conv_rhs => rw [← map_getD_range l d]
  rw [List.countP_map]
  rfl

/-! ## Claim C1 — `dropna` and the rolling window -/

/-- The base row of an engineered row is the telemetry row it came from. -/
theorem engineerRow_base (df : List TelemetryRow) (i : ℕ) :
    (engineerRow df i).base = df.getD i default := rfl

/-- Claim C1, as stated, is false: on a six-row telemetry table with no
missing cells, `preprocess_satellite_data` returns six rows, not
`6 − (6 − 1) = 1` — every rolling/delta column carries a `fillna`, so the
`dropna` of line 71 drops no rows on account of the window computations. -/
theorem preprocess_claim_counterexample :
    ¬ ((preprocess sampleTelemetry).length
        = sampleTelemetry.length - (6 - 1)) := by
  decide

/-- Claim C1, amended: `dropna` removes exactly the rows whose other CSV
columns (such as `anomaly_parameter` / `root_cause`) hold `NaN`; the rolling
columns are all filled per the documented fill policy and never cause a row
to be dropped, so on an input with no missing cells the output has exactly
as many rows as the input — not `window_size − 1` fewer. -/
theorem preprocess_row_count (df : List TelemetryRow) :
    (preprocess df).length = (df.filter (fun r => ! rowHasNaN r)).length
    ∧ ((∀ r ∈ df, rowHasNaN r = false) → (preprocess df).length = df.length) := by
  have hcount : (preprocess df).length = df.countP (fun r => ! rowHasNaN r) := by
    rw [preprocess, ← List.countP_eq_length_filter, List.countP_map]
    exact countP_getD_range df default (fun r => ! rowHasNaN r)
  constructor
  · rw [hcount, List.countP_eq_length_filter]
  · intro hall
    have hfil : df.filter (fun r => ! rowHasNaN r) = df :=
      List.filter_eq_self.mpr (fun a ha => by simp [hall a ha])
    rw [hcount, List.countP_eq_length_filter, hfil]

/-- Witness for the amended row-count theorem on the six-row sample table:
no cell is missing and the output keeps all six rows. -/
theorem preprocess_row_count_witness :
    (∀ r ∈ sampleTelemetry, rowHasNaN r = false)
    ∧ (preprocess sampleTelemetry).length = sampleTelemetry.length :=
  ⟨by decide, (preprocess_row_count sampleTelemetry).2 (by decide)⟩

/-! ## Claim C4 — sequence-window builder -/

/-- Claim C4: `create_time_series_dataset` on a table of `n` rows with
window length `L` and horizon `H` produces exactly `max(0, n − L − H + 1)`
windows and as many labels, returns empty results (without raising) when
`n < L + H`, and labels the `k`-th window with the anomaly flag of row
`k + L + H − 1`. -/
theorem sequence_window_count (names : List String) (rows : List (List ℚ))
    (L H : ℕ) :
    (((createTimeSeriesDataset names rows L H).1.length : ℤ)
        = max 0 ((rows.length : ℤ) - L - H + 1))
    ∧ (((createTimeSeriesDataset names rows L H).2.length : ℤ)
        = max 0 ((rows.length : ℤ) - L - H + 1))
    ∧ (rows.length < L + H →
        (createTimeSeriesDataset names rows L H).1 = []
        ∧ (createTimeSeriesDataset names rows L H).2 = [])
    ∧ (1 ≤ L + H →
        ∀ k < rows.length + 1 - (L + H),
          (createTimeSeriesDataset names rows L H).2.getD k 0
            = anomalyFlag names rows (k + L + H - 1)) := by
  have hlen1 : (createTimeSeriesDataset names rows L H).1.length
      = rows.length + 1 - (L + H) := by
    simp [createTimeSeriesDataset]
  have hlen2 : (createTimeSeriesDataset names rows L H).2.length
      = rows.length + 1 - (L + H) := by
    simp [createTimeSeriesDataset]
  have hcast : ((rows.length + 1 - (L + H) : ℕ) : ℤ)
      = max 0 ((rows.length : ℤ) - L - H + 1) := by
    omega
  refine ⟨by rw [hlen1]; exact hcast, by rw [hlen2]; exact hcast, ?_, ?_⟩
  · intro hshort
    have hzero : rows.length + 1 - (L + H) = 0 := by omega
    constructor <;> simp [createTimeSeriesDataset, hzero]
  · intro _ k hk
    have hsnd : (createTimeSeriesDataset names rows L H).2
        = (List.range (rows.length + 1 - (L + H))).map
            (fun i => anomalyFlag names rows (i + L + H - 1)) := rfl
    rw [hsnd, getD_map_range _ _ _ _ hk]

/-- Witness for the sequence-window theorem: thirteen one-column rows,
`L = 12`, `H = 1`, one window whose label is the flag of row `12`. -/
theorem sequence_window_count_witness :
    (1 ≤ 12 + 1
      ∧ 0 < (List.replicate 13 ([0] : List ℚ)).length + 1 - (12 + 1))
    ∧ (createTimeSeriesDataset [anomalyKey] (List.replicate 13 [0]) 12 1).2.getD 0 0
        = anomalyFlag [anomalyKey] (List.replicate 13 [0]) (0 + 12 + 1 - 1) :=
  ⟨⟨by decide, by decide⟩,
   (sequence_window_count [anomalyKey] (List.replicate 13 [0]) 12 1).2.2.2
     (by decide) 0 (by decide)⟩

/-! ## Claim C3 — clip ranges of the generated channels -/

/-- `clip` keeps values inside `[lo, hi]`. -/
theorem clip_mem (x lo hi : ℚ) (h : lo ≤ hi) :
    lo ≤ clip x lo hi ∧ clip x lo hi ≤ hi :=
  ⟨le_max_left lo _, max_le h (min_le_right x hi)⟩

/-- The memory column stays inside `[0, 100]` at every row, in and out of
the leak window. -/
theorem memoryFinal_range (days interval : ℕ) (s : ℚ → ℚ) (nM : ℕ → ℚ) (i : ℕ) :
    0 ≤ memoryFinal days interval s nM i
    ∧ memoryFinal days interval s nM i ≤ 100 := by
  induction i with
  | zero =>
      simp only [memoryFinal]
      split
      · norm_num
      · exact clip_mem _ 0 100 (by norm_num)
  | succ j ih =>
      simp only [memoryFinal]
      split
      · exact ⟨le_min (by norm_num) (by linarith [ih.1]),
          le_trans (min_le_left _ _) (by norm_num)⟩
      · exact clip_mem _ 0 100 (by norm_num)

/-- Claim C3, as stated, is false: the overheating fault of line 97 adds
`15` to the temperature after the clip of line 72, so rows of the fault
window can exceed the declared upper bound `50`.  With `days = 1`,
`interval = 60`, sine stand-in `0` and temperature noise `30` (a possible
`N(0,1)` draw), row `9` lies in the fault window and its temperature is
`65`. -/
theorem clip_range_claim_counterexample :
    ¬ (∀ (days interval : ℕ) (s : ℚ → ℚ) (nP nT nB nS nM : ℕ → ℚ),
        (∀ x, |s x| ≤ 1) → ∀ i < samples days interval,
          allChannelsInRange days interval s nP nT nB nS nM i) := by
  intro h
  have hs : ∀ x : ℚ, |zeroSin x| ≤ 1 := fun x => by norm_num [zeroSin]
  have hall := h 1 60 zeroSin zeroNoise thirtyNoise zeroNoise zeroNoise zeroNoise
    hs 9 (by decide)
  have hraw : temperatureRaw 1 60 zeroSin zeroNoise thirtyNoise 9 = 1226 / 23 := by
    norm_num [temperatureRaw, powerRaw, linspaceAt, inEclipseFlag, orbitPos,
      samples, zeroSin, zeroNoise, thirtyNoise]
  have hclip : temperatureClip 1 60 zeroSin zeroNoise thirtyNoise 9 = 50 := by
    unfold temperatureClip clip
    rw [hraw, min_eq_right (by norm_num), max_eq_right (by norm_num)]
  have hfin : temperatureFinal 1 60 zeroSin zeroNoise thirtyNoise 9 = 65 := by
    unfold temperatureFinal
    rw [if_pos (by decide : tempWindow (samples 1 60) 9), hclip]
    norm_num
  have h50 : temperatureFinal 1 60 zeroSin zeroNoise thirtyNoise 9 ≤ 50 :=
    hall.2.1.2
  rw [hfin] at h50
  norm_num at h50

/-- Claim C3, amended: for every generated table, `power`, `batteryHealth`,
`signalStrength` and `memoryUsage` stay inside their declared clip ranges on
every row, fault windows included; `temperature` stays inside `[-10, 50]`
outside the overheating window, but rows inside that window carry the
clipped value plus `15` and hence lie in `[5, 65]`, beyond the declared
range. -/
theorem clip_range_amended (days interval : ℕ) (s : ℚ → ℚ)
    (nP nT nB nS nM : ℕ → ℚ) (i : ℕ) (hi : i < samples days interval) :
    (0 ≤ powerFinal days interval s nP i ∧ powerFinal days interval s nP i ≤ 100)
    ∧ (0 ≤ batteryFinal days interval nB i ∧ batteryFinal days interval nB i ≤ 100)
    ∧ (0 ≤ signalFinal days interval s nS i ∧ signalFinal days interval s nS i ≤ 100)
    ∧ (0 ≤ memoryFinal days interval s nM i ∧ memoryFinal days interval s nM i ≤ 100)
    ∧ (¬ tempWindow (samples days interval) i →
        -10 ≤ temperatureFinal days interval s nP nT i
        ∧ temperatureFinal days interval s nP nT i ≤ 50)
    ∧ (tempWindow (samples days interval) i →
        5 ≤ temperatureFinal days interval s nP nT i
        ∧ temperatureFinal days interval s nP nT i ≤ 65) := by
  have hp : 0 ≤ powerClip days interval s nP i
      ∧ powerClip days interval s nP i ≤ 100 :=
    clip_mem (powerRaw days interval s nP i) 0 100 (by norm_num)
  have hb : 0 ≤ batteryClip days interval nB i
      ∧ batteryClip days interval nB i ≤ 100 :=
    clip_mem (batteryRaw days interval nB i) 0 100 (by norm_num)
  have hsg : 0 ≤ signalClip interval s nS i
      ∧ signalClip interval s nS i ≤ 100 :=
    clip_mem (signalRaw interval s nS i) 0 100 (by norm_num)
  have ht : -10 ≤ temperatureClip days interval s nP nT i
      ∧ temperatureClip days interval s nP nT i ≤ 50 :=
    clip_mem (temperatureRaw days interval s nP nT i) (-10) 50 (by norm_num)
  refine ⟨?_, ?_, ?_, memoryFinal_range days interval s nM i, ?_, ?_⟩
  · unfold powerFinal
    split
    · exact ⟨mul_nonneg hp.1 (by norm_num),
        le_trans (mul_le_mul_of_nonneg_right hp.2 (by norm_num)) (by norm_num)⟩
    · exact hp
  · unfold batteryFinal
    split
    · have hq0 : (0 : ℚ) ≤ (997 / 1000) ^ (i - battFaultStart (samples days interval)) :=
        pow_nonneg (by norm_num) _
      have hq1 : ((997 : ℚ) / 1000) ^ (i - battFaultStart (samples days interval)) ≤ 1 :=
        pow_le_one₀ (by norm_num) (by norm_num)
      exact ⟨mul_nonneg hb.1 hq0,
        le_trans (mul_le_mul_of_nonneg_left hq1 hb.1)
          (by rw [mul_one]; exact hb.2)⟩
    · exact hb
  · unfold signalFinal
    split
    · exact ⟨mul_nonneg hsg.1 (by norm_num),
        le_trans (mul_le_mul_of_nonneg_right hsg.2 (by norm_num)) (by norm_num)⟩
    · exact hsg
  · intro hnw
    unfold temperatureFinal
    rw [if_neg hnw]
    exact ht
  · intro hw
    unfold temperatureFinal
    rw [if_pos hw]
    exact ⟨by linarith [ht.1], by linarith [ht.2]⟩

/-- Witness for the amended clip-range theorem, at the default run
(`days = 90`, `interval = 10`) with zero noise, at row `0` (outside the
overheating window). -/
theorem clip_range_amended_witness :
    (0 < samples 90 10 ∧ ¬ tempWindow (samples 90 10) 0)
    ∧ ((0 ≤ powerFinal 90 10 zeroSin zeroNoise 0
          ∧ powerFinal 90 10 zeroSin zeroNoise 0 ≤ 100)
      ∧ (0 ≤ batteryFinal 90 10 zeroNoise 0
          ∧ batteryFinal 90 10 zeroNoise 0 ≤ 100)
      ∧ (0 ≤ signalFinal 90 10 zeroSin zeroNoise 0
          ∧ signalFinal 90 10 zeroSin zeroNoise 0 ≤ 100)
      ∧ (0 ≤ memoryFinal 90 10 zeroSin zeroNoise 0
          ∧ memoryFinal 90 10 zeroSin zeroNoise 0 ≤ 100)
      ∧ (¬ tempWindow (samples 90 10) 0 →
          -10 ≤ temperatureFinal 90 10 zeroSin zeroNoise zeroNoise 0
          ∧ temperatureFinal 90 10 zeroSin zeroNoise zeroNoise 0 ≤ 50)
      ∧ (tempWindow (samples 90 10) 0 →
          5 ≤ temperatureFinal 90 10 zeroSin zeroNoise zeroNoise 0
          ∧ temperatureFinal 90 10 zeroSin zeroNoise zeroNoise 0 ≤ 65)) :=
  ⟨⟨by decide, by decide⟩,
   clip_range_amended 90 10 zeroSin zeroNoise zeroNoise zeroNoise zeroNoise
     zeroNoise 0 (by decide)⟩

/-! ## Claim C2 — eclipse-transition counter -/

/-- Claim C2, as stated, is false: the spec asserts that for the eclipse
sequence `[0,0,1,1,1,0]` the counter sequence is `[0,1,0,1,2,0]`, but the code
produces `[1,2,0,1,2,0]` — `diff().fillna(0)` makes the change at index `0`
equal to `0`, so the loop increments the counter to `1` there rather than
leaving it at `0`. -/
theorem eclipse_counter_claim_counterexample :
    timeSinceEclipseChange [0, 0, 1, 1, 1, 0] ≠ [0, 1, 0, 1, 2, 0] := by
  decide

/-- Claim C2, amended: the counter at index `0` is `1` (the filled change is
`0`, so the loop increments); at every index `i ≥ 1` the counter is `0`
exactly when the eclipse flag differs from its value at the prior index, and
is the prior counter plus one otherwise; for `[0,0,1,1,1,0]` the counter
sequence is `[1,2,0,1,2,0]`. -/
theorem eclipse_counter_amended (e : List ℚ) (i : ℕ) (h : 1 ≤ i) :
    counterAt e 0 = 1
    ∧ (counterAt e i = 0 ↔ e.getD i 0 ≠ e.getD (i - 1) 0)
    ∧ (e.getD i 0 = e.getD (i - 1) 0 → counterAt e i = counterAt e (i - 1) + 1)
    ∧ timeSinceEclipseChange [0, 0, 1, 1, 1, 0] = [1, 2, 0, 1, 2, 0] := by
  obtain ⟨j, rfl⟩ : ∃ j, i = j + 1 := ⟨i - 1, (Nat.succ_pred_eq_of_pos h).symm⟩
  simp only [Nat.add_sub_cancel]
  have hd : eclipseChange e (j + 1) = e.getD (j + 1) 0 - e.getD j 0 := by
    simp [eclipseChange, diffFill]
  have hlist : timeSinceEclipseChange [0, 0, 1, 1, 1, 0] = [1, 2, 0, 1, 2, 0] := by
    norm_num [timeSinceEclipseChange, counterAt, eclipseChange, diffFill, List.range_succ]
  refine ⟨?_, ?_, ?_, hlist⟩
  · have h0 : eclipseChange e 0 = 0 := by simp [eclipseChange, diffFill]
    simp only [counterAt, h0]
    simp
  · simp only [counterAt]
    by_cases hc : e.getD (j + 1) 0 = e.getD j 0
    · rw [if_neg (by rw [hd, hc, sub_self]; simp)]
      exact ⟨fun hz0 => absurd hz0 (Nat.succ_ne_zero _), fun hne => absurd hc hne⟩
    · rw [if_pos (by rw [hd]; exact sub_ne_zero.mpr hc)]
      exact ⟨fun _ => hc, fun _ => rfl⟩
  · intro hc
    simp only [counterAt]
    rw [if_neg (by rw [hd, hc, sub_self]; simp)]

/-- Witness for the amended eclipse-counter theorem, at `e = [0,0,1]` and
`i = 2`. -/
theorem eclipse_counter_amended_witness :
    1 ≤ 2
    ∧ (counterAt [0, 0, 1] 0 = 1
       ∧ (counterAt [0, 0, 1] 2 = 0
            ↔ ([0, 0, 1] : List ℚ).getD 2 0 ≠ ([0, 0, 1] : List ℚ).getD 1 0)
       ∧ (([0, 0, 1] : List ℚ).getD 2 0 = ([0, 0, 1] : List ℚ).getD 1 0 →
            counterAt [0, 0, 1] 2 = counterAt [0, 0, 1] 1 + 1)
       ∧ timeSinceEclipseChange [0, 0, 1, 1, 1, 0] = [1, 2, 0, 1, 2, 0]) :=
  ⟨by decide, eclipse_counter_amended [0, 0, 1] 2 (by decide)⟩

/-! ## Claim C8 — rolling mean and standard deviation -/

/-- Claim C8: with window size `6`, a row `i ≥ 5` whose whole window
`xs[i−5..i]` holds one constant value `c` gets rolling std `0` and rolling
mean `c`; each of the first five rows gets std `0` and mean equal to its raw
value (the documented `fillna` edge policy). -/
theorem rolling_stats (xs : List ℚ) (c : ℚ) (i : ℕ) :
    (5 ≤ i → i < xs.length → (∀ j, j < 6 → xs.getD (i - 5 + j) 0 = c) →
        rollingStd xs i = 0 ∧ rollingMean xs i = c)
    ∧ (i < 5 → rollingStd xs i = 0 ∧ rollingMean xs i = xs.getD i 0) := by
  constructor
  · intro h5 hlen hwin
    have h6 : ¬ (i + 1 < 6) := by omega
    have hslice : windowSlice xs i = List.replicate 6 c := by
      have hdr : i + 1 - 6 = i - 5 := by omega
      apply List.ext_getElem?
      intro n
      rcases Nat.lt_or_ge n 6 with hn | hn
      · have hidx : i - 5 + n < xs.length := by omega
        have hx : xs[i - 5 + n]? = some c := by
          rw [List.getElem?_eq_getElem hidx]
          have hv := hwin n hn
          rw [List.getD_eq_getElem?_getD, List.getElem?_eq_getElem hidx] at hv
          simp only [Option.getD_some] at hv
          rw [hv]
        rw [windowSlice, hdr, List.getElem?_take_of_lt hn, List.getElem?_drop,
          hx, List.getElem?_replicate_of_lt hn]
      · rw [windowSlice, hdr, List.getElem?_take_eq_none hn,
          List.getElem?_replicate, if_neg (by omega)]
    have hsum : (windowSlice xs i).sum = 6 * c := by
      rw [hslice, List.sum_replicate]
      simp [nsmul_eq_mul]
    have hmean : rollingMean xs i = c := by
      rw [rollingMean, if_neg h6, hsum]
      exact mul_div_cancel_left₀ c (by norm_num)
    have hvar : rollingVar xs i = 0 := by
      rw [rollingVar, if_neg h6, hsum, hslice, List.map_replicate,
        List.sum_replicate]
      have hzero : c - 6 * c / 6 = 0 := by
        rw [mul_div_cancel_left₀ c (by norm_num : (6 : ℚ) ≠ 0), sub_self]
      rw [hzero]
      simp
    refine ⟨?_, hmean⟩
    unfold rollingStd
    rw [if_neg h6, hvar]
    simp
  · intro h5
    have h6 : i + 1 < 6 := by omega
    constructor
    · unfold rollingStd
      rw [if_pos h6]
    · rw [rollingMean, if_pos h6]

/-- Witness for the rolling-statistics theorem: six threes, checked at the
full window `i = 5` and at the incomplete-window row `i = 2`. -/
theorem rolling_stats_witness :
    ((5 ≤ 5 ∧ 5 < ([3, 3, 3, 3, 3, 3] : List ℚ).length
        ∧ ∀ j, j < 6 → ([3, 3, 3, 3, 3, 3] : List ℚ).getD (5 - 5 + j) 0 = 3)
      ∧ (rollingStd [3, 3, 3, 3, 3, 3] 5 = 0
        ∧ rollingMean [3, 3, 3, 3, 3, 3] 5 = 3))
    ∧ (2 < 5 ∧ (rollingStd [3, 3, 3, 3, 3, 3] 2 = 0
        ∧ rollingMean [3, 3, 3, 3, 3, 3] 2 = ([3, 3, 3, 3, 3, 3] : List ℚ).getD 2 0)) :=
  ⟨⟨⟨by decide, by decide, by decide⟩,
    (rolling_stats [3, 3, 3, 3, 3, 3] 3 5).1 (by decide) (by decide) (by decide)⟩,
   by decide, (rolling_stats [3, 3, 3, 3, 3, 3] 3 2).2 (by decide)⟩

/-! ## Claim C7 — empty-result signal of `create_root_cause_dataset` -/

/-- Claim C7: when no row is flagged anomalous, or no `cause_*` column
exists, `create_root_cause_dataset` returns the explicit empty signal
`(None, None)` (embedded as `none`); the function is total, so no exception
is raised. -/
theorem root_cause_empty_signal (names : List String) (rows : List (List ℚ))
    (h : anomalyRows names rows = [] ∨ targetCols names = []) :
    createRootCauseDataset names rows = none := by
  rcases h with h | h <;> simp [createRootCauseDataset, h]

/-- Witness for the empty-result theorem: a one-column frame whose single
row is not anomalous. -/
theorem root_cause_empty_signal_witness :
    (anomalyRows [anomalyKey] [[0]] = [] ∨ targetCols [anomalyKey] = [])
    ∧ createRootCauseDataset [anomalyKey] [[0]] = none :=
  ⟨Or.inl (by decide), root_cause_empty_signal [anomalyKey] [[0]] (Or.inl (by decide))⟩

/-! ## Claim C10 — `cause_*` columns are sequence features -/

/-- Claim C10: `create_time_series_dataset` excludes exactly the five names
`timestamp`, `satellite_id`, `anomaly`, `anomaly_parameter`, `root_cause`
from the feature columns, so every `cause_*` column present in the frame is
kept as an input feature (of every window, since every window selects
`featureColsSeq names`). -/
theorem cause_cols_are_sequence_features (names : List String) :
    (∀ c, c ∈ featureColsSeq names ↔ c ∈ names ∧ c ∉ excludedCols)
    ∧ (∀ c ∈ names, startsWithCause c = true → c ∈ featureColsSeq names) := by
  have hmem : ∀ c, c ∈ featureColsSeq names ↔ c ∈ names ∧ c ∉ excludedCols := by
    intro c
    simp [featureColsSeq, List.mem_filter]
  refine ⟨hmem, ?_⟩
  intro c hc hpre
  refine (hmem c).mpr ⟨hc, ?_⟩
  intro hexc
  have hfalse : startsWithCause c = false := by
    simp only [excludedCols, List.mem_cons, List.not_mem_nil, or_false] at hexc
    rcases hexc with rfl | rfl | rfl | rfl | rfl <;> decide
  rw [hpre] at hfalse
  exact Bool.noConfusion hfalse

/-- Witness: `cause_memory_leak` is kept as a sequence feature of a frame
that also carries excluded columns. -/
theorem cause_cols_are_sequence_features_witness :
    (causeMemLeakCol ∈ c10names ∧ startsWithCause causeMemLeakCol = true)
    ∧ causeMemLeakCol ∈ featureColsSeq c10names :=
  ⟨⟨by decide, by decide⟩,
   (cause_cols_are_sequence_features c10names).2 causeMemLeakCol (by decide) (by decide)⟩

/-! ## Claim C5 — synthetic anomaly labels for single-class training data -/

/-- Claim C5, as stated, is false: an all-ones label array is single-class,
yet the trainer flips nothing — the synthetic-label fallback of lines 50-63
only triggers when `np.all(y_train == 0)`; for the all-ones array the code
merely warns, sets `class_weight_dict = None`, and proceeds with the labels
unchanged. -/
theorem trainer_flip_claim_counterexample :
    ¬ (∀ (y : List ℚ) (idx : List ℕ),
        y ≠ [] → y.dedup.length = 1 →
        idx.Nodup → idx.length = syntheticCount y.length →
        (∀ j ∈ idx, j < y.length) →
        5 ≤ flippedCount y (handleClassImbalance y idx).1) := by
  intro h
  exact absurd
    (h (List.replicate 10 1) [0, 1, 2, 3, 4] (by decide) (by decide) (by decide)
      (by decide) (by decide))
    (by decide)

/-- Claim C5, amended: the synthetic flip happens exactly when every label
is `0`; then `max(5, ⌊0.05·n⌋)` randomly drawn labels become `1` (so at
least five) and the generation diagnostic is printed; a single-class array
that is not all zeros (all ones) is left unchanged, with only the one-class
warning printed. -/
theorem trainer_flip_amended (y : List ℚ) (idx : List ℕ)
    (hy : y ≠ []) (hnd : idx.Nodup)
    (hlen : idx.length = syntheticCount y.length)
    (hb : ∀ j ∈ idx, j < y.length) :
    (y.all (fun v => decide (v = 0)) = true →
        flippedCount y (handleClassImbalance y idx).1 = syntheticCount y.length
        ∧ 5 ≤ syntheticCount y.length
        ∧ syntheticMsg ∈ (handleClassImbalance y idx).2)
    ∧ (y.dedup.length = 1 → y.all (fun v => decide (v = 0)) = false →
        (handleClassImbalance y idx).1 = y
        ∧ flippedCount y (handleClassImbalance y idx).1 = 0
        ∧ singleClassMsg ∈ (handleClassImbalance y idx).2) := by
  constructor
  · intro hall
    have hz : ∀ v ∈ y, v = 0 := by
      intro v hv
      exact of_decide_eq_true (List.all_eq_true.mp hall v hv)
    have hd1 : y.dedup.length = 1 := dedup_length_one_of_zero y hy hz
    have hni : ¬ (1 < y.dedup.length) := by omega
    have hh : handleClassImbalance y idx
        = (flipAt y idx, [singleClassMsg, syntheticMsg]) := by
      rw [handleClassImbalance, if_neg hni, if_pos hall]
    refine ⟨?_, le_max_left _ _, by rw [hh]; simp⟩
    rw [hh, ← hlen, flippedCount]
    have hcong : ∀ i ∈ List.range y.length,
        decide (y.getD i 0 ≠ (flipAt y idx).getD i 0) = decide (i ∈ idx) := by
      intro i hi
      rw [List.mem_range] at hi
      have hyi : y.getD i 0 = 0 := by
        have hg : y.getD i 0 = y[i] := by
          rw [List.getD_eq_getElem?_getD, List.getElem?_eq_getElem hi]
          rfl
        rw [hg]
        exact hz _ (List.getElem_mem hi)
      have hfi : (flipAt y idx).getD i 0
          = if i ∈ idx then 1 else y.getD i 0 :=
        getD_map_range _ _ _ _ hi
      by_cases hmem : i ∈ idx
      · rw [hfi, if_pos hmem, hyi, decide_eq_decide]
        exact ⟨fun _ => hmem, fun _ => by norm_num⟩
      · rw [hfi, if_neg hmem, decide_eq_decide]
        exact ⟨fun hne => absurd rfl hne, fun hm => absurd hm hmem⟩
    rw [List.filter_congr hcong]
    exact length_filter_range_mem idx y.length hnd hb
  · intro hd1 hallF
    have hni : ¬ (1 < y.dedup.length) := by omega
    have hh : handleClassImbalance y idx = (y, [singleClassMsg]) := by
      rw [handleClassImbalance, if_neg hni, if_neg (by simp [hallF])]
    refine ⟨by rw [hh], ?_, by rw [hh]; simp⟩
    rw [hh, flippedCount]
    simp

/-- Witness for the amended trainer theorem: eight all-zero labels and the
index draw `[0,1,2,3,4]`; exactly five labels are flipped and the synthetic
diagnostic is logged. -/
theorem trainer_flip_amended_witness :
    ((List.replicate 8 (0 : ℚ) ≠ []
        ∧ ([0, 1, 2, 3, 4] : List ℕ).Nodup
        ∧ ([0, 1, 2, 3, 4] : List ℕ).length
            = syntheticCount (List.replicate 8 (0 : ℚ)).length
        ∧ ∀ j ∈ ([0, 1, 2, 3, 4] : List ℕ), j < (List.replicate 8 (0 : ℚ)).length)
      ∧ (List.replicate 8 (0 : ℚ)).all (fun v => decide (v = 0)) = true)
    ∧ (flippedCount (List.replicate 8 0)
          (handleClassImbalance (List.replicate 8 0) [0, 1, 2, 3, 4]).1
        = syntheticCount (List.replicate 8 (0 : ℚ)).length
      ∧ 5 ≤ syntheticCount (List.replicate 8 (0 : ℚ)).length
      ∧ syntheticMsg ∈ (handleClassImbalance (List.replicate 8 0) [0, 1, 2, 3, 4]).2) :=
  ⟨⟨⟨by decide, by decide, by decide, by decide⟩, by decide⟩,
   (trainer_flip_amended (List.replicate 8 0) [0, 1, 2, 3, 4] (by decide)
      (by decide) (by decide) (by decide)).1 (by decide)⟩

/-! ## Claim C9 — division-by-zero guards -/

/-- Claim C9, as stated, is false: not every division of the pipeline
substitutes an epsilon for a zero denominator.  In
`train_lifetime_prediction.py` the `np.where` of lines 32-36 evaluates
`(batteryHealth − 60) / abs(current_battery_rate)` for every retained row;
the first row always has rate `0` (`diff().fillna(0)` over `fillna(1)`),
passes the `−1 < rate < 0.1` filter, and gets denominator `|0| = 0` with no
substitution. -/
theorem division_guard_claim_counterexample :
    ¬ ((∀ x : ℚ, replaceZero x ≠ 0)
       ∧ (∀ (bh day : List ℚ) (i : ℕ), i < bh.length → rateKept bh day i →
            dayDiffFill day i ≠ 0 ∧ eolDivDenom bh day i ≠ 0)) := by
  rintro ⟨-, h⟩
  have hkept : rateKept [95] [0] 0 := by
    unfold rateKept
    norm_num [batteryRate, diffFill, dayDiffFill]
  have hzero : eolDivDenom [95] [0] 0 = 0 := by
    norm_num [eolDivDenom, batteryRate, diffFill, dayDiffFill]
  exact (h [95] [0] 0 (by decide) hkept).2 hzero

/-- Claim C9, amended: the two cross-channel ratios of
`preprocess_satellite_data` divide by `replace(0, 0.1)` of the raw channel,
a denominator that is never zero; but the lifetime script's guard is only
`fillna` and branch selection, not an epsilon substitution: the first row's
battery rate is exactly `0`, the row passes the rate filter, and the
`np.where` division denominator `abs(rate)` is `0` there. -/
theorem division_guard_amended (x : ℚ) (df : List TelemetryRow) (j : ℕ)
    (bh day : List ℚ) (hbh : bh ≠ []) :
    replaceZero x ≠ 0
    ∧ (engineerRow df j).power_div_temp
        = (df.getD j default).power / replaceZero (df.getD j default).temperature
    ∧ (engineerRow df j).battery_div_power
        = (df.getD j default).batteryHealth / replaceZero (df.getD j default).power
    ∧ batteryRate bh day 0 = 0
    ∧ rateKept bh day 0
    ∧ eolDivDenom bh day 0 = 0 := by
  refine ⟨?_, rfl, rfl, ?_, ?_, ?_⟩
  · by_cases hx : x = 0 <;> norm_num [replaceZero, hx]
  · norm_num [batteryRate, diffFill, dayDiffFill]
  · unfold rateKept
    norm_num [batteryRate, diffFill, dayDiffFill]
  · norm_num [eolDivDenom, batteryRate, diffFill, dayDiffFill]

/-- Witness for the amended division-guard theorem, at `x = 0`, the empty
telemetry table, and the one-row battery/day columns `[95]` / `[0]`. -/
theorem division_guard_amended_witness :
    ([95] : List ℚ) ≠ []
    ∧ (replaceZero 0 ≠ 0
      ∧ (engineerRow [] 0).power_div_temp
          = (([] : List TelemetryRow).getD 0 default).power
              / replaceZero (([] : List TelemetryRow).getD 0 default).temperature
      ∧ (engineerRow [] 0).battery_div_power
          = (([] : List TelemetryRow).getD 0 default).batteryHealth
              / replaceZero (([] : List TelemetryRow).getD 0 default).power
      ∧ batteryRate [95] [0] 0 = 0
      ∧ rateKept [95] [0] 0
      ∧ eolDivDenom [95] [0] 0 = 0) :=
  ⟨by decide, division_guard_amended 0 [] 0 [95] [0] (by decide)⟩

/-! ## Claim C6 — JSON metadata sidecars of the exporters -/

/-- Claim C6, as stated, is false: `prepare_for_web.py` is an exporter whose
sidecar records the input shape and the `0.5` threshold but no root-cause
label set — its metadata object has no `root_cause` key at all (only
`convert_model.py` writes one). -/
theorem metadata_claim_counterexample :
    ¬ (∀ (shape : List ℕ) (d1 d2 : ℕ),
        (recordsInputShape (convertModelMetadata shape) shape
          ∧ recordsThreshold (convertModelMetadata shape)
          ∧ recordsCauses (convertModelMetadata shape))
        ∧ (recordsInputShape (prepareForWebMetadata d1 d2) [d1, d2]
          ∧ recordsThreshold (prepareForWebMetadata d1 d2)
          ∧ recordsCauses (prepareForWebMetadata d1 d2))) := by
  intro h
  have hc := ((h [1] 1 1).2).2.2
  have hnone : (prepareForWebMetadata 1 1).lookup rootCauseKey = none := rfl
  unfold recordsCauses at hc
  rw [hnone] at hc
  exact Option.noConfusion hc

/-- Claim C6, amended: the `convert_model.py` sidecar records the input
tensor shape, the fixed `0.5` threshold and the closed root-cause label set;
the `prepare_for_web.py` sidecar records the input shape and the threshold
but carries no `root_cause` key. -/
theorem metadata_amended (shape : List ℕ) (d1 d2 : ℕ) :
    (recordsInputShape (convertModelMetadata shape) shape
      ∧ recordsThreshold (convertModelMetadata shape)
      ∧ recordsCauses (convertModelMetadata shape))
    ∧ (recordsInputShape (prepareForWebMetadata d1 d2) [d1, d2]
      ∧ recordsThreshold (prepareForWebMetadata d1 d2)
      ∧ (prepareForWebMetadata d1 d2).lookup rootCauseKey = none) := by
  exact ⟨⟨rfl, rfl, rfl⟩, rfl, rfl, rfl⟩

end Satellite
